import Mathlib

/-!
Verification of the blackboard-export script (blackboard_export.py).

The script mirrors Blackboard course content to disk.  We shallowly embed
its core: the decoded-XML value domain produced by xmltodict, the dict
operations the script performs on it, the file cache (`cache_data`), the
normalizers (`ensure_list`, `strip_keys`), the recursive course-map walker
(`parse_course_map`), the materializers (`parse_announcements`,
`parse_grades`) and the main per-course loop.

Effectful code is modelled in a state-plus-trace monad `M`: a computation
takes the filesystem state (file contents and existing directories) and
returns a Python-exception-or-value, the new state, and a trace of the
network calls and filesystem mutations it performed.  Network responses
come from a `Remote` parameter (a fixed map from cache key to raw response
text) and XML decoding from an abstract deterministic `Decode` parameter,
standing for `xmltodict.parse` (`Option.none` = ExpatError).

Recursion of the walker is bounded by an explicit fuel parameter standing
for the Python call stack; exhausting it yields `recursionError`.  For any
terminating traversal a sufficiently large fuel reproduces the behaviour.
-/

namespace BBExport

/-- Decoded XML values as produced by xmltodict: `vnone` for an empty
element (Python `None`), strings, lists and (insertion-ordered) dicts. -/
inductive XVal where
  | vnone : XVal
  | str : String → XVal
  | list : List XVal → XVal
  | obj : List (String × XVal) → XVal

/-- Python exceptions raised by the modelled code. -/
inductive PyErr where
  | typeError
  | keyError
  | attributeError
  | expatError
  | recursionError
  | osError
deriving DecidableEq, Repr

/-- First-match association-list lookup, modelling Python dict access. -/
def lookupX : List (String × XVal) → String → Option XVal
  | [], _ => Option.none
  | (k, v) :: rest, key => if k = key then some v else lookupX rest key

/-- Python truthiness of the values xmltodict can produce. -/
def pyTruthy : XVal → Bool
  | XVal.vnone => false
  | XVal.str s => !s.isEmpty
  | XVal.list l => !l.isEmpty
  | XVal.obj m => !m.isEmpty

/-- Whether a value is a Python list. -/
def isList : XVal → Bool
  | XVal.list _ => true
  | _ => false

/-- `ensure_list` (blackboard_export.py:37): wrap a truthy non-list value
in a one-element list, otherwise return the value unchanged. -/
def ensure_list (v : XVal) : XVal :=
  if pyTruthy v && !isList v then XVal.list [v] else v

/-- Unbound `dict.get` as used by `strip_keys` via `functools.reduce`:
on a dict, the value at the key or `None`; on anything else, Python
raises TypeError. -/
def dict_get (v : XVal) (k : String) : Except PyErr XVal :=
  match v with
  | XVal.obj m => Except.ok ((lookupX m k).getD XVal.vnone)
  | _ => Except.error PyErr.typeError

/-- `strip_keys` (blackboard_export.py:54): strip nested keys off in
order, `functools.reduce(dict.get, keys, value)`. -/
def strip_keys : List String → XVal → Except PyErr XVal
  | [], v => Except.ok v
  | k :: ks, v =>
    match dict_get v k with
    | Except.ok v2 => strip_keys ks v2
    | Except.error e => Except.error e

/-- Python `d[k]` subscription: KeyError when missing, TypeError on a
non-dict. -/
def pySub (v : XVal) (k : String) : Except PyErr XVal :=
  match v with
  | XVal.obj m =>
    match lookupX m k with
    | some x => Except.ok x
    | Option.none => Except.error PyErr.keyError
  | _ => Except.error PyErr.typeError

/-- Bound method `d.get(k)`: `None` default on a dict, AttributeError on a
non-dict (e.g. `None.get`). -/
def pyGet (v : XVal) (k : String) : Except PyErr XVal :=
  match v with
  | XVal.obj m => Except.ok ((lookupX m k).getD XVal.vnone)
  | _ => Except.error PyErr.attributeError

/-- Bound method `d.get(k, default)`. -/
def pyGetD (v : XVal) (k : String) (dflt : XVal) : Except PyErr XVal :=
  match v with
  | XVal.obj m => Except.ok ((lookupX m k).getD dflt)
  | _ => Except.error PyErr.attributeError

/-- Using a value where a `str` is required (`.translate`, `str + x`,
`file.write`, `path.join`): anything but a string raises. -/
def asStr : XVal → Except PyErr String
  | XVal.str s => Except.ok s
  | _ => Except.error PyErr.attributeError

/-- Python `for x in v`: lists iterate elements, dicts iterate keys,
strings iterate characters, `None` raises TypeError. -/
def pyIter : XVal → Except PyErr (List XVal)
  | XVal.list l => Except.ok l
  | XVal.obj m => Except.ok (m.map fun kv => XVal.str kv.1)
  | XVal.str s => Except.ok (s.data.map fun c => XVal.str (String.singleton c))
  | XVal.vnone => Except.error PyErr.typeError

/-- Python `k in d` for the dict case; the walker only applies it to
values already known to be dicts. -/
def pyHasKey (v : XVal) (k : String) : Bool :=
  match v with
  | XVal.obj m => (lookupX m k).isSome
  | _ => false

/-- Python `v == "lit"`: equality with a string literal is only true for
an equal string; comparing a dict, list or `None` with a string is `False`
(never an error). -/
def isStrEq (v : XVal) (t : String) : Bool :=
  match v with
  | XVal.str s => s = t
  | _ => false

/-- Python `str(v)` as used by string formatting; the repr of lists and
dicts is simplified (only determinism matters to the claims). -/
def pyStr : XVal → String
  | XVal.str s => s
  | XVal.vnone => "None"
  | XVal.list _ => "[list]"
  | XVal.obj _ => "[dict]"

/-- First-match lookup in the character translation table. -/
def lookupC : List (Char × Char) → Char → Option Char
  | [], _ => Option.none
  | (k, v) :: rest, c => if k = c then some v else lookupC rest c

/-- `VALID_PATH_CHAR_MAP` (blackboard_export.py:32):
`str.maketrans(r':\|/<>"?*', "------'--")` as a character table.
Char 34 is the double quote, 39 the apostrophe, 92 the backslash. -/
def VALID_PATH_CHAR_MAP : List (Char × Char) :=
  [(':', '-'), (Char.ofNat 92, '-'), ('|', '-'), ('/', '-'),
   ('<', '-'), ('>', '-'), (Char.ofNat 34, Char.ofNat 39),
   ('?', '-'), ('*', '-')]

/-- `name.translate(VALID_PATH_CHAR_MAP)`: sanitize a remote-supplied name
for use as a path segment, mapping each character through the table. -/
def sanitize (s : String) : String :=
  String.mk (s.data.map fun c => (lookupC VALID_PATH_CHAR_MAP c).getD c)

/-- `os.path.join` on the relative path segments the script builds. -/
def pjoin (a b : String) : String := a ++ "/" ++ b

/-- `xml.sax.saxutils.unescape`: undo the three standard XML entities,
`&amp;` last, as in the CPython implementation. -/
def unescape (s : String) : String :=
  ((s.replace "&lt;" "<").replace "&gt;" ">").replace "&amp;" "&"

def BB_DOMAIN : String := "https://blackboard.utexas.edu"

def EXPORT_PATH : String := "courses"

def XML_CACHE_PATH : String := pjoin EXPORT_PATH ".xmlcache"

def DOWNLOADABLE_LINKTYPES : List String :=
  ["resource/x-bb-assignment", "resource/x-bb-document", "resource/x-bb-file"]

/-- `map_item['@linktype'] in DOWNLOADABLE_LINKTYPES`: only a string link
type can be a member of the list of downloadable link types. -/
def isDownloadable (v : XVal) : Bool :=
  match v with
  | XVal.str s => DOWNLOADABLE_LINKTYPES.contains s
  | _ => false

def GRADE_COLUMN_KEYS : List String :=
  ["@name", "@grade", "@scoreValue", "@pointspossible",
   "@gradeBookType", "@average", "@median", "@comments"]

def GRADE_COLUMN_HEADERS : List String :=
  ["Name", "Grade", "ScoreValue", "Points Possible",
   "Category", "Average", "Median", "Comments"]

/-- Filesystem state: file contents keyed by path (later writes shadow
earlier entries), plus the set of directories that exist. -/
structure FS where
  files : List (String × String)
  dirs : List String

/-- Observable events: the two kinds of network call (a cache-wrapped
fetch, identified by its cache file path, and an attachment download) and
the two kinds of filesystem mutation. -/
inductive Ev where
  | fetch : String → Ev
  | download : String → Ev
  | write : String → String → Ev
  | mkdir : String → Ev
deriving DecidableEq, Repr

def isWriteEv : Ev → Bool
  | Ev.write _ _ => true
  | _ => false

def isMkdirEv : Ev → Bool
  | Ev.mkdir _ => true
  | _ => false

def isFetchEv : Ev → Bool
  | Ev.fetch _ => true
  | _ => false

/-- First-match lookup of a file's content. -/
def lookupF : List (String × String) → String → Option String
  | [], _ => Option.none
  | (k, v) :: rest, p => if k = p then some v else lookupF rest p

/-- Record a file's content (shadowing any previous content at the path). -/
def addFile (p c : String) (s : FS) : FS :=
  { s with files := (p, c) :: s.files }

/-- The effect monad: state in, Python-exception-or-value plus state plus
event trace out.  Exceptions unwind but filesystem effects persist. -/
def M (α : Type) : Type := FS → Except PyErr α × FS × List Ev

def mret {α : Type} (a : α) : M α := fun s => (Except.ok a, s, [])

def merr {α : Type} (e : PyErr) : M α := fun s => (Except.error e, s, [])

/-- Lift a pure Python-level computation (no effects). -/
def liftE {α : Type} (x : Except PyErr α) : M α := fun s => (x, s, [])

def mbind {α β : Type} (x : M α) (f : α → M β) : M β := fun s =>
  match x s with
  | (Except.ok a, s1, t1) =>
    match f a s1 with
    | (r, s2, t2) => (r, s2, t1 ++ t2)
  | (Except.error e, s1, t1) => (Except.error e, s1, t1)

/-- `makedirs(p)` with `exist_ok=True`: create the directory unless it is
already present. -/
def mkdirs (p : String) : M Unit := fun s =>
  if p ∈ s.dirs then (Except.ok (), s, [])
  else (Except.ok (), { s with dirs := p :: s.dirs }, [Ev.mkdir p])

/-- `open(p, 'x')` followed by writing `content`: if the path exists the
FileExistsError is caught and nothing happens; otherwise the content (or
the exception raised while producing the text to write) materializes. -/
def writeNewWith (p : String) (content : Except PyErr String) : M Unit := fun s =>
  match lookupF s.files p with
  | some _ => (Except.ok (), s, [])
  | Option.none =>
    match content with
    | Except.ok c => (Except.ok (), addFile p c s, [Ev.write p c])
    | Except.error e => (Except.error e, s, [])

/-- Network responses: raw response text per cache key (the cache file
path bijectively identifies the wrapped call), and raw bytes per
attachment download URL.  Fixed for the duration of a run. -/
structure Remote where
  resp : String → String
  download : String → String

/-- Abstract deterministic `xmltodict.parse`; `Option.none` = ExpatError. -/
def Decode : Type := String → Option XVal

/-- `open(attachment_path, 'xb')` guarding the download: if the target
exists the download request is never issued; otherwise the URI expression
is evaluated (it can raise), the download happens, and the bytes are
written. -/
def download_attachment (r : Remote) (p : String) (uri : Except PyErr String) :
    M Unit := fun s =>
  match lookupF s.files p with
  | some _ => (Except.ok (), s, [])
  | Option.none =>
    match uri with
    | Except.error e => (Except.error e, s, [])
    | Except.ok u =>
      let url := BB_DOMAIN ++ unescape u
      let bytes := r.download url
      (Except.ok (), addFile p bytes s, [Ev.download url, Ev.write p bytes])

/-- The cache file path `'{}-{}.xml'.format(path.join(XML_CACHE_PATH,
course['@courseid']), file_suffix)` (blackboard_export.py:84). -/
def cache_file_path (courseid suffix : String) : String :=
  pjoin XML_CACHE_PATH courseid ++ "-" ++ suffix ++ ".xml"

/-- Result of `xmltodict.parse(text)`: decoded value or ExpatError. -/
def parseResult (d : Decode) (text : String) : Except PyErr XVal :=
  match d text with
  | some v => Except.ok v
  | Option.none => Except.error PyErr.expatError

/-- The redownload arm of `cache_data` (blackboard_export.py:96): invoke
the wrapped fetch, then write the raw text with `open(path, 'w')`, then
parse it.  `w` injects a possible filesystem failure of the write (`open`
/ `write` raising OSError); the script has no handler, so it propagates,
and in that case nothing is persisted. -/
def refetchStep (d : Decode) (w : Option PyErr) (p ft : String) (s : FS) :
    Except PyErr XVal × FS × List Ev :=
  match w with
  | some e => (Except.error e, s, [Ev.fetch p])
  | Option.none => (parseResult d ft, addFile p ft s, [Ev.fetch p, Ev.write p ft])

/-- Core of `cache_data` (blackboard_export.py:87): if the cache file
exists and parses, return the parsed value (no fetch); if it exists but
fails to parse, or does not exist, refetch, overwrite and parse.  `ft` is
the raw text the wrapped fetch would return (`fun(*args)`), `w` the
injected write-failure outcome (`Option.none` everywhere but in the
write-failure analysis). -/
def cacheBodyE (d : Decode) (w : Option PyErr) (p ft : String) : M XVal := fun s =>
  match lookupF s.files p with
  | some txt =>
    match d txt with
    | some v => (Except.ok v, s, [])
    | Option.none => refetchStep d w p ft s
  | Option.none => refetchStep d w p ft s

/-- `cache_data` wrapper as applied to a getter: derive the cache path
from `args[1]['@courseid']` (KeyError if absent, TypeError if `path.join`
gets a non-string) and run the cache-or-fetch body against the remote. -/
def cache_data (r : Remote) (d : Decode) (course : XVal) (suffix : String) :
    M XVal :=
  mbind (liftE (pySub course "@courseid")) fun cv =>
  mbind (liftE (asStr cv)) fun cid =>
  cacheBodyE d Option.none (cache_file_path cid suffix)
    (r.resp (cache_file_path cid suffix))

/-- `get_courses` (blackboard_export.py:174): cache-or-fetch the course
list, then strip the envelope.  Note: no `ensure_list` on this getter. -/
def get_courses (r : Remote) (d : Decode) : M XVal :=
  mbind (cache_data r d (XVal.obj [("@courseid", XVal.str "courses")]) "courses")
    fun parsed =>
  liftE (strip_keys ["mobileresponse", "courses", "course"] parsed)

/-- `get_course_map` (blackboard_export.py:119): cache-or-fetch, strip
the envelope, normalize to a list. -/
def get_course_map (r : Remote) (d : Decode) (course : XVal) : M XVal :=
  mbind (cache_data r d course "coursemap") fun parsed =>
  mbind (liftE (strip_keys ["mobileresponse", "map", "map-item"] parsed)) fun v =>
  mret (ensure_list v)

/-- `get_course_grades` (blackboard_export.py:133). -/
def get_course_grades (r : Remote) (d : Decode) (course : XVal) : M XVal :=
  mbind (cache_data r d course "grades") fun parsed =>
  mbind (liftE (strip_keys ["mobileresponse", "grades", "grade-item"] parsed)) fun v =>
  mret (ensure_list v)

/-- `get_course_announcements` (blackboard_export.py:146). -/
def get_course_announcements (r : Remote) (d : Decode) (course : XVal) : M XVal :=
  mbind (cache_data r d course "announcements") fun parsed =>
  mbind (liftE (strip_keys ["mobileresponse", "announcements", "announcement"] parsed))
    fun v =>
  mret (ensure_list v)

/-- `get_content_detail` (blackboard_export.py:159): the cache suffix is
the content id itself (`cache_data(2)`). -/
def get_content_detail (r : Remote) (d : Decode) (course content_id : XVal) :
    M XVal :=
  mbind (cache_data r d course (pyStr content_id)) fun parsed =>
  liftE (strip_keys ["mobileresponse", "content"] parsed)

/-- CR LF, the default line terminator of Python's csv writer. -/
def crlf : String :=
  String.singleton (Char.ofNat 13) ++ String.singleton (Char.ofNat 10)

/-- Minimal csv quoting as done by `csv.writer`. -/
def csvQuote (s : String) : String :=
  let q := String.singleton (Char.ofNat 34)
  if s.any (fun c => c = ',' || c = Char.ofNat 34 || c = Char.ofNat 10 || c = Char.ofNat 13)
  then q ++ s.replace q (q ++ q) ++ q
  else s

/-- One csv cell: `None` renders empty, strings are minimally quoted. -/
def csvCell : XVal → String
  | XVal.vnone => ""
  | v => csvQuote (pyStr v)

def csvRow (cells : List String) : String := String.intercalate "," cells ++ crlf

/-- `[grade.get(key) for key in GRADE_COLUMN_KEYS]` rendered as one row;
`.get` on a non-dict grade raises AttributeError. -/
def gradeCells (g : XVal) : List String → Except PyErr (List String)
  | [] => Except.ok []
  | k :: ks =>
    match pyGet g k with
    | Except.error e => Except.error e
    | Except.ok v =>
      match gradeCells g ks with
      | Except.error e => Except.error e
      | Except.ok rest => Except.ok (csvCell v :: rest)

def gradeRows : List XVal → Except PyErr String
  | [] => Except.ok ""
  | g :: gs =>
    match gradeCells g GRADE_COLUMN_KEYS with
    | Except.error e => Except.error e
    | Except.ok cells =>
      match gradeRows gs with
      | Except.error e => Except.error e
      | Except.ok rest => Except.ok (csvRow cells ++ rest)

/-- Full `grades.csv` content: header row then one row per grade item. -/
def renderGrades (grades : XVal) : Except PyErr String :=
  match pyIter grades with
  | Except.error e => Except.error e
  | Except.ok gl =>
    match gradeRows gl with
    | Except.error e => Except.error e
    | Except.ok rows => Except.ok (csvRow GRADE_COLUMN_HEADERS ++ rows)

/-- `parse_grades` (blackboard_export.py:277): write-once `grades.csv`;
if it already exists the FileExistsError is caught before any row of
`grades` is touched. -/
def parse_grades (grades : XVal) (base_path : String) : M Unit :=
  writeNewWith (pjoin base_path "grades.csv") (renderGrades grades)

/-- The announcement file name `'{} - {}.html'.format(startdate, subject)`
sanitized (blackboard_export.py:261). -/
def announcementFilename (a : XVal) : Except PyErr String :=
  match pySub a "@startdate" with
  | Except.error e => Except.error e
  | Except.ok sd =>
    match pySub a "@subject" with
    | Except.error e => Except.error e
    | Except.ok sj => Except.ok (sanitize (pyStr sd ++ " - " ++ pyStr sj ++ ".html"))

/-- The announcement file content: the `#text` body (or the fixed default)
plus, when present, a newline and the author display name. -/
def announcementContent (a : XVal) : Except PyErr String :=
  match pyGetD a "#text" (XVal.str "No announcement text") with
  | Except.error e => Except.error e
  | Except.ok tv =>
    match asStr tv with
    | Except.error e => Except.error e
    | Except.ok t =>
      if pyHasKey a "@userdisplayname" then
        match pySub a "@userdisplayname" with
        | Except.error e => Except.error e
        | Except.ok uv =>
          match asStr uv with
          | Except.error e => Except.error e
          | Except.ok u => Except.ok (t ++ String.singleton (Char.ofNat 10) ++ u)
      else Except.ok t

/-- Loop a computation over a list, in order, stopping at the first
uncaught exception (Python `for`). -/
def forA {α : Type} : List α → (α → M Unit) → M Unit
  | [], _ => mret ()
  | x :: xs, f => mbind (f x) fun _ => forA xs f

/-- `parse_announcements` (blackboard_export.py:252): make the
`announcements` directory, then write one write-once html file per
announcement. -/
def parse_announcements (anns : XVal) (base_path : String) : M Unit :=
  mbind (mkdirs (pjoin base_path "announcements")) fun _ =>
  mbind (liftE (pyIter anns)) fun l =>
  forA l fun a =>
    mbind (liftE (announcementFilename a)) fun fn =>
    writeNewWith (pjoin (pjoin base_path "announcements") fn) (announcementContent a)

/-- The per-item body of `parse_course_map` for a downloadable item
(blackboard_export.py:207-246): make the item's directory, fetch its
detail through the cache, write `description.html` write-once when the
detail has a truthy body, then write-once-download each attachment. -/
def download_item (r : Remote) (d : Decode) (course : XVal)
    (content_path : String) (map_item : XVal) : M Unit :=
  mbind (liftE (pySub map_item "@contentid")) fun cid =>
  mbind (get_content_detail r d course cid) fun detail =>
  mbind (liftE (pyGet detail "body")) fun body =>
  mbind (if pyTruthy body then
           writeNewWith (pjoin content_path "description.html") (asStr body)
         else mret ()) fun _ =>
  mbind (liftE (pyGetD detail "attachments" (XVal.obj []))) fun atts =>
  mbind (liftE (pyGet atts "attachment")) fun att0 =>
  if pyTruthy att0 then
    mbind (liftE (pySub detail "attachments")) fun a1 =>
    mbind (liftE (pySub a1 "attachment")) fun a2 =>
    mbind (liftE (pyIter (ensure_list a2))) fun attachments =>
    forA attachments fun attachment =>
      mbind (liftE (pySub attachment "@name")) fun an =>
      mbind (liftE (asStr an)) fun ans =>
      download_attachment r (pjoin content_path (sanitize ans))
        ((pySub attachment "@uri").bind asStr)
  else mret ()

/-- `parse_course_map` (blackboard_export.py:186): walk the sibling list
in order.  A folder makes its directory; a folder with no `children` key
executes `break`, ending the whole sibling loop; a folder with children
recurses into them; a downloadable item is materialized; anything else is
skipped.  `fuel` bounds the number of traversal steps (Python instead
bounds the call stack; for a terminating traversal a large enough fuel
gives identical behaviour, and exhaustion is `recursionError`). -/
def parse_course_map (r : Remote) (d : Decode) (course : XVal) :
    Nat → String → List XVal → M Unit
  | _, _, [] => mret ()
  | 0, _, _ :: _ => merr PyErr.recursionError
  | Nat.succ f, cwd, map_item :: rest =>
    mbind (liftE (pySub map_item "@isfolder")) fun isf =>
    if isStrEq isf "true" then
      mbind (liftE (pySub map_item "@name")) fun nm =>
      mbind (liftE (asStr nm)) fun nms =>
      mbind (mkdirs (pjoin cwd (sanitize nms))) fun _ =>
      if pyHasKey map_item "children" then
        mbind (liftE (pySub map_item "children")) fun ch =>
        mbind (liftE (pySub ch "map-item")) fun mi =>
        mbind (liftE (pyIter (ensure_list mi))) fun folder =>
        mbind (parse_course_map r d course f (pjoin cwd (sanitize nms)) folder)
          fun _ =>
        parse_course_map r d course f cwd rest
      else
        mret ()
    else
      mbind (liftE (pySub map_item "@linktype")) fun lt =>
      if isDownloadable lt then
        mbind (liftE (pySub map_item "@name")) fun nm =>
        mbind (liftE (asStr nm)) fun nms =>
        mbind (mkdirs (pjoin cwd (sanitize nms))) fun _ =>
        mbind (download_item r d course (pjoin cwd (sanitize nms)) map_item) fun _ =>
        parse_course_map r d course f cwd rest
      else
        parse_course_map r d course f cwd rest

/-- The per-course body of `main`'s loop (blackboard_export.py:311-333):
course path from the sanitized course id, course map, course directory,
announcements and grades sections (each skipped when falsy), then the
`files` tree walk. -/
def perCourse (r : Remote) (d : Decode) (fuel : Nat) (course : XVal) : M Unit :=
  mbind (liftE (pySub course "@courseid")) fun cidv =>
  mbind (liftE (asStr cidv)) fun cid =>
  mbind (liftE (pySub course "@name")) fun _ =>
  mbind (get_course_map r d course) fun cmap =>
  mbind (mkdirs (pjoin EXPORT_PATH (sanitize cid))) fun _ =>
  mbind (get_course_announcements r d course) fun anns =>
  mbind (if pyTruthy anns then
           parse_announcements anns (pjoin EXPORT_PATH (sanitize cid))
         else mret ()) fun _ =>
  mbind (get_course_grades r d course) fun grades =>
  mbind (if pyTruthy grades then
           parse_grades grades (pjoin EXPORT_PATH (sanitize cid))
         else mret ()) fun _ =>
  mbind (mkdirs (pjoin (pjoin EXPORT_PATH (sanitize cid)) "files")) fun _ =>
  mbind (liftE (pyIter cmap)) fun items =>
  parse_course_map r d course fuel (pjoin (pjoin EXPORT_PATH (sanitize cid)) "files") items

/-- `main` (blackboard_export.py:295) after authentication (credential
prompting and the login POST are outside the specified core): make the
cache directory, get the course list, and process each course. -/
def main (r : Remote) (d : Decode) (fuel : Nat) : M Unit :=
  mbind (mkdirs XML_CACHE_PATH) fun _ =>
  mbind (get_courses r d) fun courses =>
  mbind (liftE (pyIter courses)) fun cl =>
  forA cl (perCourse r d fuel)

/-- State extension, relative to the decoder: every existing file still
exists, every file whose content decodes keeps that content verbatim
(the cache only ever overwrites undecodable entries, and all other writes
are exclusive-mode), and every directory still exists. -/
def Ext (d : Decode) (s t : FS) : Prop :=
  (∀ p, (lookupF s.files p).isSome → (lookupF t.files p).isSome) ∧
  (∀ p c, lookupF s.files p = some c → (d c).isSome → lookupF t.files p = some c) ∧
  (∀ q, q ∈ s.dirs → q ∈ t.dirs)

/-- A computation is rerun-silent when every successful execution only
extends the state, and re-executing it from any extension of its final
state succeeds with the same value, changes nothing and performs no
network call and no filesystem mutation. -/
def Rerun {α : Type} (d : Decode) (m : M α) : Prop :=
  ∀ s a s2 tr, m s = (Except.ok a, s2, tr) →
    Ext d s s2 ∧ ∀ t, Ext d s2 t → m t = (Except.ok a, t, [])

/-! Concrete fixtures used to witness the theorems below.  Each claim has
its own fixture data so that the fixtures stay independent. -/

/-- The empty filesystem. -/
def fs0 : FS := ⟨[], []⟩

/-- An apostrophe, written by code point. -/
def apos : String := String.singleton (Char.ofNat 39)

/-- A double quote, written by code point. -/
def quot : String := String.singleton (Char.ofNat 34)

/-- A remote that always answers with the empty string (for fixtures that
never fetch). -/
def remoteNull : Remote := ⟨fun _ => "", fun _ => ""⟩

/-- A decoder on which nothing parses (for fixtures that never decode). -/
def decodeNull : Decode := fun _ => Option.none

/-- Envelope builder: `<mobileresponse><tag>…</tag></mobileresponse>`. -/
def env1 (tag : String) (v : XVal) : XVal :=
  XVal.obj [("mobileresponse", XVal.obj [(tag, v)])]

/- C1 fixture: one valid cached entry, and a fresh response. -/

def vW : XVal := XVal.obj [("k", XVal.str "v")]

def vFresh : XVal := XVal.obj [("fresh", XVal.str "1")]

def dW : Decode := fun t =>
  if t = "GOODXML" then some vW
  else if t = "FRESH" then some vFresh
  else Option.none

def rW : Remote := ⟨fun _ => "FRESH", fun _ => ""⟩

def courseW : XVal := XVal.obj [("@courseid", XVal.str "cw")]

def sHit : FS := ⟨[(cache_file_path "cw" "grades", "GOODXML")], []⟩

def sCorrupt : FS := ⟨[(cache_file_path "cw" "grades", "TRUNCATED<")], []⟩

/- C2 fixture: an empty folder followed by a sibling folder. -/

def emptyFolder : XVal :=
  XVal.obj [("@isfolder", XVal.str "true"), ("@name", XVal.str "Empty")]

def afterFolder : XVal :=
  XVal.obj [("@isfolder", XVal.str "true"), ("@name", XVal.str "After")]

/- C3 fixture: one course, one skipped map item, empty grades and
announcement sections. -/

def courseA : XVal :=
  XVal.obj [("@courseid", XVal.str "c1"), ("@bbid", XVal.str "b1"),
            ("@name", XVal.str "Course One")]

def skipItemA : XVal :=
  XVal.obj [("@isfolder", XVal.str "false"), ("@linktype", XVal.str "other")]

def rA : Remote :=
  ⟨fun p =>
    if p = cache_file_path "courses" "courses" then "A-COURSES"
    else if p = cache_file_path "c1" "coursemap" then "A-MAP"
    else if p = cache_file_path "c1" "announcements" then "A-ANN"
    else if p = cache_file_path "c1" "grades" then "A-GR"
    else "",
   fun _ => ""⟩

def dA : Decode := fun t =>
  if t = "A-COURSES" then
    some (env1 "courses" (XVal.obj [("course", XVal.list [courseA])]))
  else if t = "A-MAP" then
    some (env1 "map" (XVal.obj [("map-item", skipItemA)]))
  else if t = "A-ANN" then
    some (env1 "announcements" (XVal.obj [("@id", XVal.str "1")]))
  else if t = "A-GR" then
    some (env1 "grades" (XVal.obj [("@id", XVal.str "1")]))
  else Option.none

/- C5 fixture: the tree Root{FolderX{ItemA, ItemB}, ItemC} with all three
items downloadable. -/

def course5 : XVal :=
  XVal.obj [("@courseid", XVal.str "c5"), ("@bbid", XVal.str "b5"),
            ("@name", XVal.str "Course Five")]

def dlItem (nm cid : String) : XVal :=
  XVal.obj [("@isfolder", XVal.str "false"),
            ("@linktype", XVal.str "resource/x-bb-file"),
            ("@name", XVal.str nm), ("@contentid", XVal.str cid)]

def itemA : XVal := dlItem "ItemA" "idA"

def itemB : XVal := dlItem "ItemB" "idB"

def itemC : XVal := dlItem "ItemC" "idC"

def folderX : XVal :=
  XVal.obj [("@isfolder", XVal.str "true"), ("@name", XVal.str "FolderX"),
            ("children", XVal.obj [("map-item", XVal.list [itemA, itemB])])]

def root5 : XVal :=
  XVal.obj [("@isfolder", XVal.str "true"), ("@name", XVal.str "Root"),
            ("children", XVal.obj [("map-item", XVal.list [folderX, itemC])])]

/-- Content detail with neither body nor attachments. -/
def bareDetail : XVal := env1 "content" (XVal.obj [("@id", XVal.str "x")])

def r5 : Remote :=
  ⟨fun p =>
    if p = cache_file_path "c5" "idA" then "D-A"
    else if p = cache_file_path "c5" "idB" then "D-B"
    else if p = cache_file_path "c5" "idC" then "D-C"
    else "",
   fun _ => ""⟩

def d5 : Decode := fun t =>
  if t = "D-A" then some bareDetail
  else if t = "D-B" then some bareDetail
  else if t = "D-C" then some bareDetail
  else Option.none

/- C6 fixture: a downloadable item whose detail response does not parse,
followed by a sibling folder; and a course without a course id. -/

def course6 : XVal := XVal.obj [("@courseid", XVal.str "c6")]

def badItem : XVal :=
  XVal.obj [("@isfolder", XVal.str "false"),
            ("@linktype", XVal.str "resource/x-bb-file"),
            ("@name", XVal.str "Bad"), ("@contentid", XVal.str "bad")]

def after6 : XVal :=
  XVal.obj [("@isfolder", XVal.str "true"), ("@name", XVal.str "After6")]

def r6 : Remote := ⟨fun _ => "BADXML", fun _ => ""⟩

/-- A course record with no `@courseid` key: processing it raises KeyError
inside `cache_data`. -/
def badCourse : XVal := XVal.obj [("@name", XVal.str "No Id")]

/- C9 fixture: a folder whose remote-supplied name contains the full set
of characters illegal in path segments. -/

def dirtyName : String := "A/B:C" ++ quot ++ "D"

def cleanName : String := "A-B-C" ++ apos ++ "D"

def dirtyFolder : XVal :=
  XVal.obj [("@isfolder", XVal.str "true"), ("@name", XVal.str dirtyName)]

/- C10 fixture: one course whose grades and announcements sections decode
but contain no items (the final payload key is absent). -/

def course10 : XVal :=
  XVal.obj [("@courseid", XVal.str "c10"), ("@bbid", XVal.str "b10"),
            ("@name", XVal.str "Course Ten")]

def skipItem10 : XVal :=
  XVal.obj [("@isfolder", XVal.str "false"), ("@linktype", XVal.str "x")]

def r10 : Remote :=
  ⟨fun p =>
    if p = cache_file_path "courses" "courses" then "T-COURSES"
    else if p = cache_file_path "c10" "coursemap" then "T-MAP"
    else if p = cache_file_path "c10" "announcements" then "T-ANN"
    else if p = cache_file_path "c10" "grades" then "T-GR"
    else "",
   fun _ => ""⟩

def d10 : Decode := fun t =>
  if t = "T-COURSES" then
    some (env1 "courses" (XVal.obj [("course", XVal.list [course10])]))
  else if t = "T-MAP" then
    some (env1 "map" (XVal.obj [("map-item", skipItem10)]))
  else if t = "T-ANN" then
    some (env1 "announcements" (XVal.obj [("@id", XVal.str "1")]))
  else if t = "T-GR" then
    some (env1 "grades" (XVal.obj [("@id", XVal.str "1")]))
  else Option.none

/- C8 fixture: a response that is not empty but lacks the final key of
the grades path. -/

def cx8 : XVal := env1 "grades" (XVal.obj [("@courseid", XVal.str "c")])

theorem lookupF_addFile (p c : String) (s : FS) (q : String) :
    lookupF (addFile p c s).files q = if p = q then some c else lookupF s.files q :=
  rfl

theorem ext_refl (d : Decode) (s : FS) : Ext d s s :=
  ⟨fun _ h => h, fun _ _ h _ => h, fun _ h => h⟩

theorem ext_trans {d : Decode} {s t u : FS} (h1 : Ext d s t) (h2 : Ext d t u) :
    Ext d s u := by
  obtain ⟨a1, b1, c1⟩ := h1
  obtain ⟨a2, b2, c2⟩ := h2
  refine ⟨fun p hp => a2 p (a1 p hp), fun p c hp hc => b2 p c (b1 p c hp hc) hc,
    fun q hq => c2 q (c1 q hq)⟩

theorem rerun_mret {α : Type} (d : Decode) (a : α) : Rerun d (mret a) := by
  intro s b s2 tr h
  simp only [mret, Prod.mk.injEq, Except.ok.injEq] at h
  obtain ⟨rfl, rfl, rfl⟩ := h
  exact ⟨ext_refl d s, fun t _ => rfl⟩

theorem rerun_merr {α : Type} (d : Decode) (e : PyErr) : Rerun d (merr (α := α) e) := by
  intro s b s2 tr h
  simp [merr] at h

theorem rerun_liftE {α : Type} (d : Decode) (x : Except PyErr α) : Rerun d (liftE x) := by
  intro s b s2 tr h
  simp only [liftE, Prod.mk.injEq] at h
  obtain ⟨h1, rfl, rfl⟩ := h
  exact ⟨ext_refl d s, fun t _ => by simp [liftE, h1]⟩

theorem rerun_mbind {α β : Type} {d : Decode} {x : M α} {f : α → M β}
    (hx : Rerun d x) (hf : ∀ a, Rerun d (f a)) : Rerun d (mbind x f) := by
  intro s b s2 tr h
  unfold mbind at h
  rcases hxs : x s with ⟨rx, s1, t1⟩
  rw [hxs] at h
  cases rx with
  | error e => simp at h
  | ok a =>
    dsimp only at h
    rcases hfs : f a s1 with ⟨rf, s2x, t2⟩
    rw [hfs] at h
    dsimp only at h
    simp only [Prod.mk.injEq] at h
    obtain ⟨hr, hs, htr⟩ := h
    subst hr hs htr
    obtain ⟨ext1, hrx⟩ := hx s a s1 t1 hxs
    obtain ⟨ext2, hrf⟩ := hf a s1 b s2x t2 hfs
    refine ⟨ext_trans ext1 ext2, fun t ht => ?_⟩
    unfold mbind
    rw [hrx t (ext_trans ext2 ht)]
    dsimp only
    rw [hrf t ht]
    simp

theorem rerun_ite {α : Type} {d : Decode} (b : Bool) {x y : M α}
    (hx : Rerun d x) (hy : Rerun d y) : Rerun d (if b then x else y) := by
  cases b
  · simpa using hy
  · simpa using hx

theorem rerun_mkdirs (d : Decode) (p : String) : Rerun d (mkdirs p) := by
  intro s b s2 tr h
  unfold mkdirs at h
  by_cases hp : p ∈ s.dirs
  · rw [if_pos hp] at h
    simp only [Prod.mk.injEq] at h
    obtain ⟨_, rfl, rfl⟩ := h
    refine ⟨ext_refl d s, fun t ht => ?_⟩
    unfold mkdirs
    rw [if_pos (ht.2.2 p hp)]
  · rw [if_neg hp] at h
    simp only [Prod.mk.injEq] at h
    obtain ⟨_, rfl, rfl⟩ := h
    refine ⟨⟨fun q hq => hq, fun q c hq hc => hq, fun q hq => List.mem_cons_of_mem p hq⟩,
      fun t ht => ?_⟩
    unfold mkdirs
    rw [if_pos (ht.2.2 p (List.mem_cons_self p s.dirs))]

theorem rerun_writeNewWith (d : Decode) (p : String) (content : Except PyErr String) :
    Rerun d (writeNewWith p content) := by
  intro s b s2 tr h
  unfold writeNewWith at h
  cases hl : lookupF s.files p with
  | some c0 =>
    rw [hl] at h
    dsimp only at h
    simp only [Prod.mk.injEq] at h
    obtain ⟨_, rfl, rfl⟩ := h
    refine ⟨ext_refl d s, fun t ht => ?_⟩
    have hiso : (lookupF t.files p).isSome := ht.1 p (by rw [hl]; rfl)
    unfold writeNewWith
    cases h2 : lookupF t.files p with
    | some _ => rfl
    | none => rw [h2] at hiso; simp at hiso
  | none =>
    rw [hl] at h
    dsimp only at h
    cases content with
    | error e => simp at h
    | ok c =>
      dsimp only at h
      simp only [Prod.mk.injEq] at h
      obtain ⟨_, rfl, rfl⟩ := h
      constructor
      · refine ⟨fun q hq => ?_, fun q c0 hq hc => ?_, fun q hq => hq⟩
        · rw [lookupF_addFile]
          by_cases hpq : p = q
          · simp [hpq]
          · rw [if_neg hpq]; exact hq
        · rw [lookupF_addFile]
          by_cases hpq : p = q
          · rw [← hpq] at hq; rw [hl] at hq; exact absurd hq (by simp)
          · rw [if_neg hpq]; exact hq
      · intro t ht
        have hs2 : lookupF (addFile p c s).files p = some c := by
          rw [lookupF_addFile, if_pos rfl]
        have hiso : (lookupF t.files p).isSome := ht.1 p (by rw [hs2]; rfl)
        unfold writeNewWith
        cases h2 : lookupF t.files p with
        | some _ => rfl
        | none => rw [h2] at hiso; simp at hiso

theorem rerun_download_attachment (d : Decode) (r : Remote) (p : String)
    (uri : Except PyErr String) : Rerun d (download_attachment r p uri) := by
  intro s b s2 tr h
  unfold download_attachment at h
  cases hl : lookupF s.files p with
  | some c0 =>
    rw [hl] at h
    dsimp only at h
    simp only [Prod.mk.injEq] at h
    obtain ⟨_, rfl, rfl⟩ := h
    refine ⟨ext_refl d s, fun t ht => ?_⟩
    have hiso : (lookupF t.files p).isSome := ht.1 p (by rw [hl]; rfl)
    unfold download_attachment
    cases h2 : lookupF t.files p with
    | some _ => rfl
    | none => rw [h2] at hiso; simp at hiso
  | none =>
    rw [hl] at h
    dsimp only at h
    cases uri with
    | error e => simp at h
    | ok u =>
      dsimp only at h
      simp only [Prod.mk.injEq] at h
      obtain ⟨_, rfl, rfl⟩ := h
      constructor
      · refine ⟨fun q hq => ?_, fun q c0 hq hc => ?_, fun q hq => hq⟩
        · rw [lookupF_addFile]
          by_cases hpq : p = q
          · simp [hpq]
          · rw [if_neg hpq]; exact hq
        · rw [lookupF_addFile]
          by_cases hpq : p = q
          · rw [← hpq] at hq; rw [hl] at hq; exact absurd hq (by simp)
          · rw [if_neg hpq]; exact hq
      · intro t ht
        have hs2 : lookupF (addFile p (r.download (BB_DOMAIN ++ unescape u)) s).files p
            = some (r.download (BB_DOMAIN ++ unescape u)) := by
          rw [lookupF_addFile, if_pos rfl]
        have hiso : (lookupF t.files p).isSome := ht.1 p (by rw [hs2]; rfl)
        unfold download_attachment
        cases h2 : lookupF t.files p with
        | some _ => rfl
        | none => rw [h2] at hiso; simp at hiso

theorem rerun_cacheBody (d : Decode) (p ft : String) :
    Rerun d (cacheBodyE d Option.none p ft) := by
  intro s b s2 tr h
  unfold cacheBodyE refetchStep parseResult at h
  cases hl : lookupF s.files p with
  | some txt =>
    rw [hl] at h
    dsimp only at h
    cases hd : d txt with
    | some v =>
      rw [hd] at h
      dsimp only at h
      simp only [Prod.mk.injEq, Except.ok.injEq] at h
      obtain ⟨rfl, rfl, rfl⟩ := h
      refine ⟨ext_refl d s, fun t ht => ?_⟩
      have h2 : lookupF t.files p = some txt := ht.2.1 p txt hl (by rw [hd]; rfl)
      unfold cacheBodyE
      rw [h2]
      dsimp only
      rw [hd]
    | none =>
      rw [hd] at h
      dsimp only at h
      cases hft : d ft with
      | none => rw [hft] at h; simp at h
      | some v =>
        rw [hft] at h
        dsimp only at h
        simp only [Prod.mk.injEq, Except.ok.injEq] at h
        obtain ⟨rfl, rfl, rfl⟩ := h
        constructor
        · refine ⟨fun q hq => ?_, fun q c0 hq hc => ?_, fun q hq => hq⟩
          · rw [lookupF_addFile]
            by_cases hpq : p = q
            · simp [hpq]
            · rw [if_neg hpq]; exact hq
          · rw [lookupF_addFile]
            by_cases hpq : p = q
            · exfalso
              rw [← hpq, hl] at hq
              cases hq
              rw [hd] at hc
              simp at hc
            · rw [if_neg hpq]; exact hq
        · intro t ht
          have h2 : lookupF t.files p = some ft :=
            ht.2.1 p ft (by rw [lookupF_addFile, if_pos rfl]) (by rw [hft]; rfl)
          unfold cacheBodyE
          rw [h2]
          dsimp only
          rw [hft]
  | none =>
    rw [hl] at h
    dsimp only at h
    cases hft : d ft with
    | none => rw [hft] at h; simp at h
    | some v =>
      rw [hft] at h
      dsimp only at h
      simp only [Prod.mk.injEq, Except.ok.injEq] at h
      obtain ⟨rfl, rfl, rfl⟩ := h
      constructor
      · refine ⟨fun q hq => ?_, fun q c0 hq hc => ?_, fun q hq => hq⟩
        · rw [lookupF_addFile]
          by_cases hpq : p = q
          · simp [hpq]
          · rw [if_neg hpq]; exact hq
        · rw [lookupF_addFile]
          by_cases hpq : p = q
          · rw [← hpq, hl] at hq; cases hq
          · rw [if_neg hpq]; exact hq
      · intro t ht
        have h2 : lookupF t.files p = some ft :=
          ht.2.1 p ft (by rw [lookupF_addFile, if_pos rfl]) (by rw [hft]; rfl)
        unfold cacheBodyE
        rw [h2]
        dsimp only
        rw [hft]

theorem rerun_cache_data (r : Remote) (d : Decode) (course : XVal) (suffix : String) :
    Rerun d (cache_data r d course suffix) := by
  unfold cache_data
  exact rerun_mbind (rerun_liftE d _) fun cv =>
    rerun_mbind (rerun_liftE d _) fun cid => rerun_cacheBody d _ _

theorem rerun_get_courses (r : Remote) (d : Decode) : Rerun d (get_courses r d) := by
  unfold get_courses
  exact rerun_mbind (rerun_cache_data r d _ _) fun parsed => rerun_liftE d _

theorem rerun_get_course_map (r : Remote) (d : Decode) (course : XVal) :
    Rerun d (get_course_map r d course) := by
  unfold get_course_map
  exact rerun_mbind (rerun_cache_data r d _ _) fun parsed =>
    rerun_mbind (rerun_liftE d _) fun v => rerun_mret d _

theorem rerun_get_course_grades (r : Remote) (d : Decode) (course : XVal) :
    Rerun d (get_course_grades r d course) := by
  unfold get_course_grades
  exact rerun_mbind (rerun_cache_data r d _ _) fun parsed =>
    rerun_mbind (rerun_liftE d _) fun v => rerun_mret d _

theorem rerun_get_course_announcements (r : Remote) (d : Decode) (course : XVal) :
    Rerun d (get_course_announcements r d course) := by
  unfold get_course_announcements
  exact rerun_mbind (rerun_cache_data r d _ _) fun parsed =>
    rerun_mbind (rerun_liftE d _) fun v => rerun_mret d _

theorem rerun_get_content_detail (r : Remote) (d : Decode) (course content_id : XVal) :
    Rerun d (get_content_detail r d course content_id) := by
  unfold get_content_detail
  exact rerun_mbind (rerun_cache_data r d _ _) fun parsed => rerun_liftE d _

theorem rerun_forA {α : Type} {d : Decode} (l : List α) (f : α → M Unit)
    (hf : ∀ a, Rerun d (f a)) : Rerun d (forA l f) := by
  induction l with
  | nil => exact rerun_mret d ()
  | cons a l ih => exact rerun_mbind (hf a) fun _ => ih

theorem rerun_parse_grades (d : Decode) (grades : XVal) (base_path : String) :
    Rerun d (parse_grades grades base_path) :=
  rerun_writeNewWith d _ _

theorem rerun_parse_announcements (d : Decode) (anns : XVal) (base_path : String) :
    Rerun d (parse_announcements anns base_path) := by
  unfold parse_announcements
  refine rerun_mbind (rerun_mkdirs d _) fun _ => ?_
  refine rerun_mbind (rerun_liftE d _) fun l => ?_
  exact rerun_forA l _ fun a =>
    rerun_mbind (rerun_liftE d _) fun fn => rerun_writeNewWith d _ _

theorem rerun_download_item (r : Remote) (d : Decode) (course : XVal)
    (content_path : String) (map_item : XVal) :
    Rerun d (download_item r d course content_path map_item) := by
  unfold download_item
  refine rerun_mbind (rerun_liftE d _) fun cid => ?_
  refine rerun_mbind (rerun_get_content_detail r d course cid) fun detail => ?_
  refine rerun_mbind (rerun_liftE d _) fun body => ?_
  refine rerun_mbind (rerun_ite _ (rerun_writeNewWith d _ _) (rerun_mret d ())) fun _ => ?_
  refine rerun_mbind (rerun_liftE d _) fun atts => ?_
  refine rerun_mbind (rerun_liftE d _) fun att0 => ?_
  refine rerun_ite _ ?_ (rerun_mret d ())
  refine rerun_mbind (rerun_liftE d _) fun a1 => ?_
  refine rerun_mbind (rerun_liftE d _) fun a2 => ?_
  refine rerun_mbind (rerun_liftE d _) fun attachments => ?_
  exact rerun_forA attachments _ fun attachment =>
    rerun_mbind (rerun_liftE d _) fun an =>
      rerun_mbind (rerun_liftE d _) fun ans => rerun_download_attachment d r _ _

theorem rerun_parse_course_map (r : Remote) (d : Decode) (course : XVal) :
    ∀ (fuel : Nat) (cwd : String) (items : List XVal),
      Rerun d (parse_course_map r d course fuel cwd items) := by
  intro fuel
  induction fuel with
  | zero =>
    intro cwd items
    cases items with
    | nil => exact rerun_mret d ()
    | cons i rest => exact rerun_merr d PyErr.recursionError
  | succ f ih =>
    intro cwd items
    cases items with
    | nil => exact rerun_mret d ()
    | cons map_item rest =>
      show Rerun d (mbind _ _)
      refine rerun_mbind (rerun_liftE d _) fun isf => ?_
      refine rerun_ite _ ?_ ?_
      · refine rerun_mbind (rerun_liftE d _) fun nm => ?_
        refine rerun_mbind (rerun_liftE d _) fun nms => ?_
        refine rerun_mbind (rerun_mkdirs d _) fun _ => ?_
        refine rerun_ite _ ?_ (rerun_mret d ())
        refine rerun_mbind (rerun_liftE d _) fun ch => ?_
        refine rerun_mbind (rerun_liftE d _) fun mi => ?_
        refine rerun_mbind (rerun_liftE d _) fun folder => ?_
        exact rerun_mbind (ih _ folder) fun _ => ih cwd rest
      · refine rerun_mbind (rerun_liftE d _) fun lt => ?_
        refine rerun_ite _ ?_ (ih cwd rest)
        refine rerun_mbind (rerun_liftE d _) fun nm => ?_
        refine rerun_mbind (rerun_liftE d _) fun nms => ?_
        refine rerun_mbind (rerun_mkdirs d _) fun _ => ?_
        exact rerun_mbind (rerun_download_item r d course _ map_item) fun _ =>
          ih cwd rest

theorem rerun_perCourse (r : Remote) (d : Decode) (fuel : Nat) (course : XVal) :
    Rerun d (perCourse r d fuel course) := by
  unfold perCourse
  refine rerun_mbind (rerun_liftE d _) fun cidv => ?_
  refine rerun_mbind (rerun_liftE d _) fun cid => ?_
  refine rerun_mbind (rerun_liftE d _) fun _ => ?_
  refine rerun_mbind (rerun_get_course_map r d course) fun cmap => ?_
  refine rerun_mbind (rerun_mkdirs d _) fun _ => ?_
  refine rerun_mbind (rerun_get_course_announcements r d course) fun anns => ?_
  refine rerun_mbind
    (rerun_ite _ (rerun_parse_announcements d anns _) (rerun_mret d ())) fun _ => ?_
  refine rerun_mbind (rerun_get_course_grades r d course) fun grades => ?_
  refine rerun_mbind
    (rerun_ite _ (rerun_parse_grades d grades _) (rerun_mret d ())) fun _ => ?_
  refine rerun_mbind (rerun_mkdirs d _) fun _ => ?_
  refine rerun_mbind (rerun_liftE d _) fun items => ?_
  exact rerun_parse_course_map r d course fuel _ items

theorem rerun_main (r : Remote) (d : Decode) (fuel : Nat) : Rerun d (main r d fuel) := by
  unfold main
  refine rerun_mbind (rerun_mkdirs d _) fun _ => ?_
  refine rerun_mbind (rerun_get_courses r d) fun courses => ?_
  refine rerun_mbind (rerun_liftE d _) fun cl => ?_
  exact rerun_forA cl _ fun course => rerun_perCourse r d fuel course

theorem mbind_liftE_ok {α β : Type} {x : Except PyErr α} {a : α}
    (hx : x = Except.ok a) (f : α → M β) (s : FS) : mbind (liftE x) f s = f a s := by
  subst hx
  unfold mbind liftE
  dsimp only
  rcases hfs : f a s with ⟨r1, s1, t1⟩
  simp

/-- Claim C1: for every cache key, if a cache file exists and its contents
decode, `cache_data` returns the decoded structure without invoking the
wrapped fetch (no fetch event, state unchanged); if no cache file exists
or the contents fail to decode, the fetch is invoked exactly once, its raw
text is persisted (overwriting any prior corrupt content) and the decoded
form of the fresh text is returned. -/
theorem cache_data_hit_and_refetch (r : Remote) (d : Decode)
    (cm : List (String × XVal)) (cid suffix : String)
    (hcid : lookupX cm "@courseid" = some (XVal.str cid)) :
    (∀ s txt v, lookupF s.files (cache_file_path cid suffix) = some txt →
        d txt = some v →
        cache_data r d (XVal.obj cm) suffix s = (Except.ok v, s, [])) ∧
    (∀ s, (lookupF s.files (cache_file_path cid suffix) = Option.none ∨
           ∃ txt, lookupF s.files (cache_file_path cid suffix) = some txt ∧
                  d txt = Option.none) →
        cache_data r d (XVal.obj cm) suffix s =
          (parseResult d (r.resp (cache_file_path cid suffix)),
           addFile (cache_file_path cid suffix)
             (r.resp (cache_file_path cid suffix)) s,
           [Ev.fetch (cache_file_path cid suffix),
            Ev.write (cache_file_path cid suffix)
              (r.resp (cache_file_path cid suffix))])) := by
  have hps : pySub (XVal.obj cm) "@courseid" = Except.ok (XVal.str cid) := by
    unfold pySub
    dsimp only
    rw [hcid]
  constructor
  · intro s txt v hl hd
    unfold cache_data
    rw [mbind_liftE_ok hps, mbind_liftE_ok (rfl : asStr (XVal.str cid) = Except.ok cid)]
    unfold cacheBodyE
    rw [hl]
    dsimp only
    rw [hd]
  · intro s hmiss
    unfold cache_data
    rw [mbind_liftE_ok hps, mbind_liftE_ok (rfl : asStr (XVal.str cid) = Except.ok cid)]
    unfold cacheBodyE refetchStep
    rcases hmiss with hnone | ⟨txt, hsome, hdz⟩
    · rw [hnone]
    · rw [hsome]
      dsimp only
      rw [hdz]

/-- Witness for C1: a cache hit on a valid entry is returned as decoded
with no fetch, and a corrupt entry is refetched, overwritten and the
fresh decode returned. -/
theorem cache_data_hit_and_refetch_witness :
    cache_data rW dW courseW "grades" sHit = (Except.ok vW, sHit, []) ∧
    cache_data rW dW courseW "grades" sCorrupt =
      (Except.ok vFresh, addFile (cache_file_path "cw" "grades") "FRESH" sCorrupt,
       [Ev.fetch (cache_file_path "cw" "grades"),
        Ev.write (cache_file_path "cw" "grades") "FRESH"]) :=
  ⟨(cache_data_hit_and_refetch rW dW [("@courseid", XVal.str "cw")] "cw" "grades"
      rfl).1 sHit "GOODXML" vW rfl rfl,
   (cache_data_hit_and_refetch rW dW [("@courseid", XVal.str "cw")] "cw" "grades"
      rfl).2 sCorrupt (Or.inr ⟨"TRUNCATED<", rfl, rfl⟩)⟩

/-- Claim C2 (code bug): evaluating the walker on a sibling list whose
first element is a folder without a `children` key shows that the code
executes `break`: the empty folder's directory is created, but the
sibling folder `After` is never visited (no directory, no event), because
the `break` at blackboard_export.py:204 terminates the whole sibling
loop instead of skipping the one node, contradicting the specified
per-node skip. -/
theorem empty_folder_break_halts_siblings :
    parse_course_map remoteNull decodeNull (XVal.obj []) 5 "files"
      [emptyFolder, afterFolder] fs0 =
      (Except.ok (), ⟨[], ["files/Empty"]⟩, [Ev.mkdir "files/Empty"]) := rfl

/-- Claim C3: after one complete run of the export, a second run from the
resulting state succeeds, performs no network call and no filesystem
mutation (empty event trace) and leaves the state byte-identical. -/
theorem second_run_makes_no_calls_and_no_writes (r : Remote) (d : Decode)
    (fuel : Nat) (s0 : FS) (a : Unit)
    (h : (main r d fuel s0).1 = Except.ok a) :
    main r d fuel ((main r d fuel s0).2.1) =
      (Except.ok a, (main r d fuel s0).2.1, []) := by
  have hr := rerun_main r d fuel
  have h2 : main r d fuel s0 =
      (Except.ok a, (main r d fuel s0).2.1, (main r d fuel s0).2.2) := by
    rcases hm : main r d fuel s0 with ⟨res, s1, t1⟩
    rw [hm] at h
    dsimp only at h ⊢
    rw [h]
  obtain ⟨_, hrun⟩ := hr s0 a ((main r d fuel s0).2.1) ((main r d fuel s0).2.2) h2
  exact hrun ((main r d fuel s0).2.1) (ext_refl d ((main r d fuel s0).2.1))

/-- Witness for C3: a concrete complete first run against a one-course
remote, after which the second run is a silent no-op. -/
theorem second_run_makes_no_calls_and_no_writes_witness :
    main rA dA 5 ((main rA dA 5 fs0).2.1) =
      (Except.ok (), (main rA dA 5 fs0).2.1, []) :=
  second_run_makes_no_calls_and_no_writes rA dA 5 fs0 () rfl

/-- Claim C4: the cache-entry write is a single write of the complete raw
response text at the cache path; a filesystem write failure propagates
(fails loudly) and persists nothing; and whenever `cache_data` fails, any
entry left at the key is one a later run will not trust (it fails to
decode). -/
theorem cache_persist_single_complete_write (d : Decode) (w : Option PyErr)
    (p ft : String) (s : FS) (res : Except PyErr XVal) (s2 : FS) (tr : List Ev)
    (h : cacheBodyE d w p ft s = (res, s2, tr)) :
    (∀ q c, Ev.write q c ∈ tr → q = p ∧ c = ft) ∧
    tr.countP (fun e => isWriteEv e) ≤ 1 ∧
    (∀ e, w = some e → Ev.fetch p ∈ tr → res = Except.error e ∧ s2 = s) ∧
    (∀ e, res = Except.error e → ∀ c, lookupF s2.files p = some c →
        d c = Option.none) := by
  unfold cacheBodyE refetchStep parseResult at h
  cases hl : lookupF s.files p with
  | some txt =>
    rw [hl] at h
    dsimp only at h
    cases hd : d txt with
    | some v =>
      rw [hd] at h
      dsimp only at h
      simp only [Prod.mk.injEq] at h
      obtain ⟨rfl, rfl, rfl⟩ := h
      refine ⟨by simp, by simp, by simp, ?_⟩
      intro e he
      simp at he
    | none =>
      rw [hd] at h
      dsimp only at h
      cases w with
      | some e0 =>
        dsimp only at h
        simp only [Prod.mk.injEq] at h
        obtain ⟨rfl, rfl, rfl⟩ := h
        refine ⟨by simp, by simp [List.countP, List.countP.go, isWriteEv], ?_, ?_⟩
        · intro e he _
          simp only [Option.some.injEq] at he
          exact ⟨by rw [he], rfl⟩
        · intro e _ c hc
          rw [hl] at hc
          cases hc
          exact hd
      | none =>
        dsimp only at h
        cases hft : d ft with
        | some v =>
          rw [hft] at h
          dsimp only at h
          simp only [Prod.mk.injEq] at h
          obtain ⟨rfl, rfl, rfl⟩ := h
          refine ⟨?_, by simp [List.countP, List.countP.go, isWriteEv], by simp, ?_⟩
          · intro q c hm
            simp at hm
            exact ⟨hm.1, hm.2⟩
          · intro e he
            simp at he
        | none =>
          rw [hft] at h
          dsimp only at h
          simp only [Prod.mk.injEq] at h
          obtain ⟨rfl, rfl, rfl⟩ := h
          refine ⟨?_, by simp [List.countP, List.countP.go, isWriteEv], by simp, ?_⟩
          · intro q c hm
            simp at hm
            exact ⟨hm.1, hm.2⟩
          · intro e _ c hc
            rw [lookupF_addFile, if_pos rfl] at hc
            cases hc
            exact hft
  | none =>
    rw [hl] at h
    dsimp only at h
    cases w with
    | some e0 =>
      dsimp only at h
      simp only [Prod.mk.injEq] at h
      obtain ⟨rfl, rfl, rfl⟩ := h
      refine ⟨by simp, by simp [List.countP, List.countP.go, isWriteEv], ?_, ?_⟩
      · intro e he _
        simp only [Option.some.injEq] at he
        exact ⟨by rw [he], rfl⟩
      · intro e _ c hc
        rw [hl] at hc
        cases hc
    | none =>
      dsimp only at h
      cases hft : d ft with
      | some v =>
        rw [hft] at h
        dsimp only at h
        simp only [Prod.mk.injEq] at h
        obtain ⟨rfl, rfl, rfl⟩ := h
        refine ⟨?_, by simp [List.countP, List.countP.go, isWriteEv], by simp, ?_⟩
        · intro q c hm
          simp at hm
          exact ⟨hm.1, hm.2⟩
        · intro e he
          simp at he
      | none =>
        rw [hft] at h
        dsimp only at h
        simp only [Prod.mk.injEq] at h
        obtain ⟨rfl, rfl, rfl⟩ := h
        refine ⟨?_, by simp [List.countP, List.countP.go, isWriteEv], by simp, ?_⟩
        · intro q c hm
          simp at hm
          exact ⟨hm.1, hm.2⟩
        · intro e _ c hc
          rw [lookupF_addFile, if_pos rfl] at hc
          cases hc
          exact hft

/-- Witness for C4: with an injected write failure on a cache miss, the
cache body fails loudly with that error and persists nothing. -/
theorem cache_persist_single_complete_write_witness :
    (cacheBodyE dW (some PyErr.osError) "P" "F" fs0).1 =
      Except.error PyErr.osError ∧
    (cacheBodyE dW (some PyErr.osError) "P" "F" fs0).2.1 = fs0 :=
  (cache_persist_single_complete_write dW (some PyErr.osError) "P" "F" fs0 _ _ _
      rfl).2.2.1 PyErr.osError rfl (by decide)

/-- Claim C5: on the fixture tree Root{FolderX{ItemA, ItemB}, ItemC} the
walker succeeds, creates the directories in exactly the presented
sibling order, and issues exactly one content-detail fetch for each of
ItemA, ItemB, ItemC — none for Root or FolderX. -/
theorem walker_fixture_order_and_fetches :
    (parse_course_map r5 d5 course5 10 "files" [root5] fs0).1 = Except.ok () ∧
    (parse_course_map r5 d5 course5 10 "files" [root5] fs0).2.2.filter
        (fun e => isMkdirEv e) =
      [Ev.mkdir "files/Root", Ev.mkdir "files/Root/FolderX",
       Ev.mkdir "files/Root/FolderX/ItemA", Ev.mkdir "files/Root/FolderX/ItemB",
       Ev.mkdir "files/Root/ItemC"] ∧
    (parse_course_map r5 d5 course5 10 "files" [root5] fs0).2.2.filter
        (fun e => isFetchEv e) =
      [Ev.fetch (cache_file_path "c5" "idA"), Ev.fetch (cache_file_path "c5" "idB"),
       Ev.fetch (cache_file_path "c5" "idC")] :=
  ⟨rfl, rfl, rfl⟩

/-- Counterexample to C6: a failing content-detail fetch for the first
item (its response does not parse) aborts the walker — the sibling folder
After6 is never visited, so a per-item failure does halt traversal of the
remaining siblings. -/
theorem item_failure_halts_siblings_cex :
    (parse_course_map r6 decodeNull course6 5 "files" [badItem, after6] fs0).1 =
      Except.error PyErr.expatError ∧
    (parse_course_map r6 decodeNull course6 5 "files" [badItem, after6]
        fs0).2.2.contains (Ev.mkdir "files/After6") = false ∧
    (parse_course_map r6 decodeNull course6 5 "files" [badItem, after6]
        fs0).2.2.contains (Ev.mkdir "files/Bad") = true :=
  ⟨rfl, rfl, rfl⟩

/-- Claim C6 as amended: failures propagate as exceptions; in particular
a failure while processing one course aborts the loop over courses, so
the remaining courses are not processed (and the error carries no
reporting of offending identifiers). -/
theorem course_failure_halts_remaining (r : Remote) (d : Decode) (fuel : Nat)
    (c : XVal) (rest : List XVal) (s s2 : FS) (e : PyErr) (tr : List Ev)
    (h : perCourse r d fuel c s = (Except.error e, s2, tr)) :
    forA (c :: rest) (perCourse r d fuel) s = (Except.error e, s2, tr) := by
  show mbind (perCourse r d fuel c) _ s = _
  unfold mbind
  rw [h]

/-- Witness for the amended C6: a course record without a course id fails
with KeyError and the following course is never processed. -/
theorem course_failure_halts_remaining_witness :
    forA [badCourse, course6] (perCourse r6 decodeNull 1) fs0 =
      (Except.error PyErr.keyError, fs0, []) :=
  course_failure_halts_remaining r6 decodeNull 1 badCourse [course6] fs0 fs0
    PyErr.keyError [] rfl

/-- Claim C7: `ensure_list` wraps a truthy non-list payload in a
one-element list and returns a list payload unchanged, so one-child and
many-child sections present identically downstream. -/
theorem ensure_list_wraps_single :
    (∀ v, pyTruthy v = true → isList v = false → ensure_list v = XVal.list [v]) ∧
    (∀ l, ensure_list (XVal.list l) = XVal.list l) := by
  constructor
  · intro v hv hl
    unfold ensure_list
    rw [hv, hl]
    simp
  · intro l
    unfold ensure_list
    simp [isList]

/-- Witness for C7: a bare record is wrapped into a one-element list; a
three-element list is returned as is. -/
theorem ensure_list_wraps_single_witness :
    ensure_list (XVal.obj [("@id", XVal.str "1")]) =
      XVal.list [XVal.obj [("@id", XVal.str "1")]] ∧
    ensure_list (XVal.list [XVal.str "a", XVal.str "b", XVal.str "c"]) =
      XVal.list [XVal.str "a", XVal.str "b", XVal.str "c"] :=
  ⟨ensure_list_wraps_single.1 _ rfl rfl, ensure_list_wraps_single.2 _⟩

/-- Counterexample to C8: a response that is not itself empty but lacks
the final key `grade-item` of the fixed path does NOT make the normalizer
fail — `strip_keys` returns `None` without any error. -/
theorem missing_final_key_returns_none_cex :
    pyTruthy cx8 = true ∧
    strip_keys ["mobileresponse", "grades", "grade-item"] cx8 =
      Except.ok XVal.vnone :=
  ⟨rfl, rfl⟩

/-- Claim C8 as amended: only a missing NON-final key on the path makes
the normalizer fail, and then with a TypeError (from applying `dict.get`
to the resulting `None`), not a dedicated schema error; a missing final
key yields `None` without error, which downstream treats as the
zero-items case. -/
theorem strip_keys_missing_key_behavior :
    (∀ (m : List (String × XVal)) (k : String), lookupX m k = Option.none →
        strip_keys [k] (XVal.obj m) = Except.ok XVal.vnone) ∧
    (∀ (m : List (String × XVal)) (k k2 : String) (rest : List String),
        lookupX m k = Option.none →
        strip_keys (k :: k2 :: rest) (XVal.obj m) =
          Except.error PyErr.typeError) := by
  constructor
  · intro m k hk
    simp [strip_keys, dict_get, hk]
  · intro m k k2 rest hk
    simp [strip_keys, dict_get, hk]

/-- Witness for the amended C8. -/
theorem strip_keys_missing_key_behavior_witness :
    strip_keys ["grade-item"] (XVal.obj [("@courseid", XVal.str "c")]) =
      Except.ok XVal.vnone ∧
    strip_keys ["grades", "grade-item"] (XVal.obj [("@id", XVal.str "2")]) =
      Except.error PyErr.typeError :=
  ⟨strip_keys_missing_key_behavior.1 _ "grade-item" rfl,
   strip_keys_missing_key_behavior.2 _ "grades" "grade-item" [] rfl⟩

/-- Claim C9: each of the nine characters is replaced as specified (the
double quote by an apostrophe, the rest by hyphens), the example name is
sanitized exactly as claimed, and the walker uses the sanitized name as
the on-disk path segment. -/
theorem sanitize_path_chars :
    sanitize ":" = "-" ∧ sanitize "\\" = "-" ∧ sanitize "|" = "-" ∧
    sanitize "/" = "-" ∧ sanitize "<" = "-" ∧ sanitize ">" = "-" ∧
    sanitize quot = apos ∧ sanitize "?" = "-" ∧ sanitize "*" = "-" ∧
    sanitize dirtyName = cleanName ∧
    (parse_course_map remoteNull decodeNull (XVal.obj []) 5 "files"
        [dirtyFolder] fs0).2.2 = [Ev.mkdir (pjoin "files" cleanName)] :=
  ⟨rfl, rfl, rfl, rfl, rfl, rfl, rfl, rfl, rfl, rfl, rfl⟩

/-- Claim C10: when the decoded section envelope lacks the final payload
key, the getter pipeline yields `None` (falsy, not a list and not an
empty list), and on a concrete run with empty grades and announcements
sections the export succeeds, writes no grades.csv and creates no
announcements directory for that course, while the course directory
itself exists. -/
theorem empty_section_no_artifacts (mg : List (String × XVal))
    (hmg : lookupX mg "grade-item" = Option.none) :
    strip_keys ["mobileresponse", "grades", "grade-item"]
        (XVal.obj [("mobileresponse", XVal.obj [("grades", XVal.obj mg)])]) =
      Except.ok XVal.vnone ∧
    ensure_list XVal.vnone = XVal.vnone ∧
    pyTruthy XVal.vnone = false ∧
    (get_course_grades r10 d10 course10 fs0).1 = Except.ok XVal.vnone ∧
    (main r10 d10 5 fs0).1 = Except.ok () ∧
    lookupF ((main r10 d10 5 fs0).2.1).files
        (pjoin (pjoin EXPORT_PATH "c10") "grades.csv") = Option.none ∧
    ((main r10 d10 5 fs0).2.1).dirs.contains
        (pjoin (pjoin EXPORT_PATH "c10") "announcements") = false ∧
    ((main r10 d10 5 fs0).2.1).dirs.contains (pjoin EXPORT_PATH "c10") = true := by
  refine ⟨?_, rfl, rfl, rfl, rfl, rfl, rfl, rfl⟩
  have h1 : strip_keys ["mobileresponse", "grades", "grade-item"]
      (XVal.obj [("mobileresponse", XVal.obj [("grades", XVal.obj mg)])]) =
      Except.ok ((lookupX mg "grade-item").getD XVal.vnone) := rfl
  rw [h1, hmg]
  rfl

/-- Witness for C10: the general part instantiated at a concrete
zero-item grades envelope. -/
theorem empty_section_no_artifacts_witness :
    strip_keys ["mobileresponse", "grades", "grade-item"]
        (XVal.obj [("mobileresponse", XVal.obj [("grades",
          XVal.obj [("@courseid", XVal.str "c10")])])]) =
      Except.ok XVal.vnone :=
  (empty_section_no_artifacts [("@courseid", XVal.str "c10")] rfl).1

end BBExport
